import Mathlib

/-!
# Verification of the grouper power HAL (src/power/power.c)

Shallow embedding of the policy state, uevent handler and power-hint
entry point of the power HAL.

Modelling conventions:
* The external world of sysfs endpoints is modelled by a trace of write
  events, and the success/failure of each `write (2)` by an oracle
  `o : Nat → Bool` indexed by the position of the write in the trace
  (`o k` is the result of the k-th `sysfs_write` call issued in a run).
* A uevent message is the C string placed in the receive buffer,
  modelled as a `List Char` (up to the first NUL byte); the `recv`
  return value is a separate `Int` parameter.
* `strtol (cp + n - 1, NULL, 10)` starts at the final character of the
  message, so it parses at most one digit; following the bionic strtol,
  a string with no digits yields `EINVAL`, which the error check in
  the handler turns into a drop.  This is modelled by `strtolLastChar`.
* `usleep` delays and the mutex are invisible to the sequential
  semantics and are not modelled; each entry point runs atomically,
  matching the single-lock discipline of the source.
-/

/-- UEVENT_MSG_LEN from power.c line 38. -/
def UEVENT_MSG_LEN : Nat := 2048

/-- TOTAL_CPUS from power.c line 39. -/
def TOTAL_CPUS : Nat := 4

/-- RETRY_TIME_CHANGING_FREQ from power.c line 40. -/
def RETRY_TIME_CHANGING_FREQ : Nat := 20

/-- LOW_POWER_MAX_FREQ from power.c line 42. -/
def LOW_POWER_MAX_FREQ : String := "640000"

/-- LOW_POWER_MIN_FREQ from power.c line 43. -/
def LOW_POWER_MIN_FREQ : String := "51000"

/-- NORMAL_MAX_FREQ from power.c line 44. -/
def NORMAL_MAX_FREQ : String := "1300000"

/-- UEVENT_STRING from power.c line 45: the online-event signature. -/
def UEVENT_STRING : String := "online@/devices/system/cpu/"

/-- The sysfs endpoints the embedded entry points write to:
`cpu_path_min[i]`, `cpu_path_max[i]`, CPUQUIET_CORE_LOCKER and
CPUFREQ_BOOSTPULSE. -/
inductive Endpoint where
  | cpuMin (cpu : Nat)
  | cpuMax (cpu : Nat)
  | coreLockTrigger
  | boostpulse
deriving DecidableEq

/-- The mutex-guarded globals of power.c: `low_power_mode` (line 64)
and `freq_set` (line 63, one flag per CPU, all initially false). -/
structure PowerState where
  low_power_mode : Bool
  freq_set : List Bool
deriving DecidableEq

/-- A run: the current policy state together with the trace of sysfs
writes issued so far (in order). -/
structure Run where
  state : PowerState
  writes : List (Endpoint × String)
deriving DecidableEq

/-- Models sysfs_write (power.c lines 67-88): appends the write event
to the trace and returns 0 on success, -1 on failure, as decided by
the oracle at this trace position. -/
def sysfs_write (o : Nat → Bool) (r : Run) (path : Endpoint) (s : String) : Run × Int :=
  ({ r with writes := r.writes ++ [(path, s)] },
   if o r.writes.length then 0 else -1)

/-- Whether `needle` occurs at the front of `hay` (character-wise). -/
def matchesAt : List Char → List Char → Bool
  | [], _ => true
  | _ :: _, [] => false
  | a :: as, b :: bs => a == b && matchesAt as bs

/-- Models C `strstr (hay, needle) != NULL`: whether `needle` occurs as
a contiguous substring of `hay`. -/
def strstr : List Char → List Char → Bool
  | [], needle => needle.isEmpty
  | c :: t, needle => matchesAt needle (c :: t) || strstr t needle

/-- Models `strtol (cp + n - 1, NULL, 10)` at power.c line 109 under
bionic semantics: the parse starts at the FINAL character of the
message, so it reads at most one digit; if that character is not a
digit there is no conversion, bionic sets EINVAL, and the error check
in the caller drops the message — modelled as `none`. -/
def strtolLastChar (msg : List Char) : Option Nat :=
  match msg.getLast? with
  | none => none
  | some c => if c.isDigit then some (c.toNat - 48) else none

/-- The low-power retry loop of `uevent_event` (power.c lines 117-126):
per iteration write the minimum bound (result ignored), then the
maximum bound; on max-write success set `freq_set[cpu] := true` and
stop, otherwise sleep and retry with one less unit of fuel. -/
def lp_retry_loop (o : Nat → Bool) (cpu : Nat) : Nat → Run → Run
  | 0, r => r
  | retry + 1, r =>
    let r1 := (sysfs_write o r (.cpuMin cpu) LOW_POWER_MIN_FREQ).1
    let p := sysfs_write o r1 (.cpuMax cpu) LOW_POWER_MAX_FREQ
    if p.2 = 0 then
      { p.1 with state := { p.1.state with freq_set := p.1.state.freq_set.set cpu true } }
    else
      lp_retry_loop o cpu retry p.1

/-- The back-to-normal retry loop of `uevent_event` (power.c lines
128-136): per iteration write the normal maximum bound; on success set
`freq_set[cpu] := false` and stop, otherwise retry. -/
def normal_retry_loop (o : Nat → Bool) (cpu : Nat) : Nat → Run → Run
  | 0, r => r
  | retry + 1, r =>
    let p := sysfs_write o r (.cpuMax cpu) NORMAL_MAX_FREQ
    if p.2 = 0 then
      { p.1 with state := { p.1.state with freq_set := p.1.state.freq_set.set cpu false } }
    else
      normal_retry_loop o cpu retry p.1

/-- Models uevent_event (power.c lines 90-141).  `n` is the `recv`
return value, `msg` the received C string.  Empty/error receives and
overflows are dropped with -1 before any parsing; then the message is
searched for the online signature, the CPU index is parsed from the
final character, range-checked, and the matching reconcile branch is
run under the lock. -/
def uevent_event (o : Nat → Bool) (n : Int) (msg : List Char) (r : Run) : Run × Int :=
  if n ≤ 0 then (r, -1)
  else if n ≥ (UEVENT_MSG_LEN : Int) then (r, -1)
  else if strstr msg UEVENT_STRING.toList then
    match strtolLastChar msg with
    | none => (r, -1)
    | some cpu =>
      if cpu ≥ TOTAL_CPUS then (r, -1)
      else if r.state.low_power_mode && !(r.state.freq_set.getD cpu false) then
        (lp_retry_loop o cpu RETRY_TIME_CHANGING_FREQ r, 0)
      else if !r.state.low_power_mode && r.state.freq_set.getD cpu false then
        (normal_retry_loop o cpu RETRY_TIME_CHANGING_FREQ r, 0)
      else (r, 0)
  else (r, 0)

/-- The per-CPU reconciliation that `uevent_event` performs once a CPU
index has been extracted from the message (power.c lines 111-140):
range check, then the mode/flag-gated retry loops. -/
def reconcile_one (o : Nat → Bool) (cpu : Nat) (r : Run) : Run × Int :=
  if cpu ≥ TOTAL_CPUS then (r, -1)
  else if r.state.low_power_mode && !(r.state.freq_set.getD cpu false) then
    (lp_retry_loop o cpu RETRY_TIME_CHANGING_FREQ r, 0)
  else if !r.state.low_power_mode && r.state.freq_set.getD cpu false then
    (normal_retry_loop o cpu RETRY_TIME_CHANGING_FREQ r, 0)
  else (r, 0)

/-- The recognized values of `power_hint_t` (hardware/power.h, API
version 0.2). -/
inductive HintKind where
  | vsync
  | interaction
  | videoEncode
  | videoDecode
  | low_power
deriving DecidableEq

/-- One step of the low-power loop in `grouper_power_hint` (power.c
lines 257-263): write the minimum bound (result ignored) and the
maximum bound once — no retry — and set `freq_set[cpu] := true` only
if the max write succeeded. -/
def lp_hint_cpu (o : Nat → Bool) (r : Run) (cpu : Nat) : Run :=
  let r1 := (sysfs_write o r (.cpuMin cpu) LOW_POWER_MIN_FREQ).1
  let p := sysfs_write o r1 (.cpuMax cpu) LOW_POWER_MAX_FREQ
  if p.2 = 0 then
    { p.1 with state := { p.1.state with freq_set := p.1.state.freq_set.set cpu true } }
  else p.1

/-- One step of the back-to-normal loop in `grouper_power_hint`
(power.c lines 267-272): write the normal maximum bound once and set
`freq_set[cpu] := false` only on success. -/
def normal_hint_cpu (o : Nat → Bool) (r : Run) (cpu : Nat) : Run :=
  let p := sysfs_write o r (.cpuMax cpu) NORMAL_MAX_FREQ
  if p.2 = 0 then
    { p.1 with state := { p.1.state with freq_set := p.1.state.freq_set.set cpu false } }
  else p.1

/-- Models grouper_power_hint (power.c lines 242-279).  `data` models
the truthiness (non-nullness) of the `data` pointer.  INTERACTION writes
the boostpulse trigger; LOW_POWER writes the core-lock trigger, sets
`low_power_mode`, then walks every CPU; all other hints fall to the
default case and do nothing. -/
def grouper_power_hint (o : Nat → Bool) (hint : HintKind) (data : Bool) (r : Run) : Run :=
  match hint with
  | .interaction => (sysfs_write o r .boostpulse "1").1
  | .low_power =>
    if data then
      let r1 := (sysfs_write o r .coreLockTrigger "0").1
      let r2 := { r1 with state := { r1.state with low_power_mode := true } }
      (List.range TOTAL_CPUS).foldl (lp_hint_cpu o) r2
    else
      let r1 := (sysfs_write o r .coreLockTrigger "1").1
      let r2 := { r1 with state := { r1.state with low_power_mode := false } }
      (List.range TOTAL_CPUS).foldl (normal_hint_cpu o) r2
  | _ => r

/-- The initial state (power.c lines 63-64): normal mode, no CPU has
low-power bounds applied, no writes issued yet. -/
def initRun : Run :=
  { state := { low_power_mode := false, freq_set := List.replicate TOTAL_CPUS false },
    writes := [] }

/-- An environment in which every endpoint write succeeds. -/
def okAll : Nat → Bool := fun _ => true

/-- An environment in which exactly the eighth write (index 7)
succeeds: for a retry loop starting from an empty trace this is the
max-bound write of attempt 3. -/
def oSeven : Nat → Bool := fun k => decide (k = 7)

/-- An environment matching the C4 scenario: every write succeeds
except trace position 4, the low-power max-bound write for CPU 1
during the mode change. -/
def oSpare4 : Nat → Bool := fun k => decide (k ≠ 4)

/-- A uevent message announcing CPU 1 online. -/
def msg1 : List Char := "online@/devices/system/cpu/cpu1".toList

/-- A uevent message announcing CPU 4 online (out of range). -/
def msg4 : List Char := "online@/devices/system/cpu/cpu4".toList

/-- A uevent message whose trailing integer is 12. -/
def msg12 : List Char := "online@/devices/system/cpu/cpu12".toList

/-- A uevent message whose trailing integer is -1. -/
def msgNeg1 : List Char := "online@/devices/system/cpu/cpu-1".toList

/-- A run in low-power mode where no CPU has its bounds applied yet. -/
def lpRunAllFalse : Run :=
  { state := { low_power_mode := true, freq_set := [false, false, false, false] },
    writes := [] }

/-- The index (0-based attempt number) of the first retry attempt whose
maximum-bound write succeeds, when the loop starts with `base` writes
already in the trace: attempt `k` issues its min write at trace
position `base + 2k` and its gating max write at `base + 2k + 1`. -/
def firstSuccess (o : Nat → Bool) (base : Nat) : Nat → Option Nat
  | 0 => none
  | m + 1 => if o (base + 1) then some 0 else (firstSuccess o (base + 2) m).map (· + 1)

/-- The writes issued by `m` attempts of the low-power retry loop for
`cpu`: one minimum-bound write and one maximum-bound write per attempt. -/
def lpAttemptWrites (cpu : Nat) : Nat → List (Endpoint × String)
  | 0 => []
  | m + 1 => (Endpoint.cpuMin cpu, LOW_POWER_MIN_FREQ) ::
             (Endpoint.cpuMax cpu, LOW_POWER_MAX_FREQ) :: lpAttemptWrites cpu m

/-! ## Helper lemmas about the hint-path per-CPU steps -/

theorem lp_hint_cpu_eq (o : Nat → Bool) (r : Run) (cpu : Nat) :
    lp_hint_cpu o r cpu =
      { state := { low_power_mode := r.state.low_power_mode,
                   freq_set := if o (r.writes.length + 1) then r.state.freq_set.set cpu true
                               else r.state.freq_set },
        writes := r.writes ++ [(Endpoint.cpuMin cpu, LOW_POWER_MIN_FREQ),
                               (Endpoint.cpuMax cpu, LOW_POWER_MAX_FREQ)] } := by
  unfold lp_hint_cpu sysfs_write
  by_cases h : o (r.writes.length + 1) <;> simp [h]

theorem normal_hint_cpu_eq (o : Nat → Bool) (r : Run) (cpu : Nat) :
    normal_hint_cpu o r cpu =
      { state := { low_power_mode := r.state.low_power_mode,
                   freq_set := if o r.writes.length then r.state.freq_set.set cpu false
                               else r.state.freq_set },
        writes := r.writes ++ [(Endpoint.cpuMax cpu, NORMAL_MAX_FREQ)] } := by
  unfold normal_hint_cpu sysfs_write
  by_cases h : o r.writes.length <;> simp [h]

theorem foldl_lp_mode (o : Nat → Bool) (l : List Nat) (r : Run) :
    (l.foldl (lp_hint_cpu o) r).state.low_power_mode = r.state.low_power_mode := by
  induction l generalizing r with
  | nil => rfl
  | cons a t ih => rw [List.foldl_cons, ih, lp_hint_cpu_eq]

theorem foldl_normal_mode (o : Nat → Bool) (l : List Nat) (r : Run) :
    (l.foldl (normal_hint_cpu o) r).state.low_power_mode = r.state.low_power_mode := by
  induction l generalizing r with
  | nil => rfl
  | cons a t ih => rw [List.foldl_cons, ih, normal_hint_cpu_eq]

theorem foldl_lp_len (o : Nat → Bool) (l : List Nat) (r : Run) :
    (l.foldl (lp_hint_cpu o) r).writes.length = r.writes.length + 2 * l.length := by
  induction l generalizing r with
  | nil => simp
  | cons a t ih =>
    rw [List.foldl_cons, ih, lp_hint_cpu_eq]
    simp
    omega

theorem foldl_normal_len (o : Nat → Bool) (l : List Nat) (r : Run) :
    (l.foldl (normal_hint_cpu o) r).writes.length = r.writes.length + l.length := by
  induction l generalizing r with
  | nil => simp
  | cons a t ih =>
    rw [List.foldl_cons, ih, normal_hint_cpu_eq]
    simp
    omega

theorem foldl_lp_extend (o : Nat → Bool) (l : List Nat) (r : Run) :
    ∃ t, (l.foldl (lp_hint_cpu o) r).writes = r.writes ++ t := by
  induction l generalizing r with
  | nil => exact ⟨[], by simp⟩
  | cons a s ih =>
    obtain ⟨t, ht⟩ := ih (lp_hint_cpu o r a)
    refine ⟨[(Endpoint.cpuMin a, LOW_POWER_MIN_FREQ),
             (Endpoint.cpuMax a, LOW_POWER_MAX_FREQ)] ++ t, ?_⟩
    rw [List.foldl_cons, ht, lp_hint_cpu_eq]
    simp

theorem foldl_normal_extend (o : Nat → Bool) (l : List Nat) (r : Run) :
    ∃ t, (l.foldl (normal_hint_cpu o) r).writes = r.writes ++ t := by
  induction l generalizing r with
  | nil => exact ⟨[], by simp⟩
  | cons a s ih =>
    obtain ⟨t, ht⟩ := ih (normal_hint_cpu o r a)
    refine ⟨[(Endpoint.cpuMax a, NORMAL_MAX_FREQ)] ++ t, ?_⟩
    rw [List.foldl_cons, ht, normal_hint_cpu_eq]
    simp

/-- Definitional normal form of the POWER_HINT_LOW_POWER branch with
non-null data (power.c lines 254-263): core-lock write, mode set, then
the per-CPU pass. -/
theorem hint_lp_true_eq (o : Nat → Bool) (r : Run) :
    grouper_power_hint o .low_power true r =
      (List.range TOTAL_CPUS).foldl (lp_hint_cpu o)
        { state := { low_power_mode := true, freq_set := r.state.freq_set },
          writes := r.writes ++ [(Endpoint.coreLockTrigger, "0")] } := rfl

/-- Definitional normal form of the POWER_HINT_LOW_POWER branch with
null data (power.c lines 264-273). -/
theorem hint_lp_false_eq (o : Nat → Bool) (r : Run) :
    grouper_power_hint o .low_power false r =
      (List.range TOTAL_CPUS).foldl (normal_hint_cpu o)
        { state := { low_power_mode := false, freq_set := r.state.freq_set },
          writes := r.writes ++ [(Endpoint.coreLockTrigger, "1")] } := rfl

/-! ## Helper lemmas about the control flow of the uevent handler -/

theorem uevent_event_bad_n (o : Nat → Bool) (n : Int) (msg : List Char) (r : Run)
    (h : n ≤ 0 ∨ (UEVENT_MSG_LEN : Int) ≤ n) :
    uevent_event o n msg r = (r, -1) := by
  unfold uevent_event
  rcases h with h | h
  · rw [if_pos h]
  · by_cases h0 : n ≤ 0
    · rw [if_pos h0]
    · rw [if_neg h0, if_pos (show n ≥ (UEVENT_MSG_LEN : Int) from h)]

theorem uevent_event_no_sig (o : Nat → Bool) (n : Int) (msg : List Char) (r : Run)
    (h0 : ¬ n ≤ 0) (h1 : ¬ n ≥ (UEVENT_MSG_LEN : Int))
    (hsig : strstr msg UEVENT_STRING.toList = false) :
    uevent_event o n msg r = (r, 0) := by
  unfold uevent_event
  rw [if_neg h0, if_neg h1, if_neg (by rw [hsig]; simp)]

theorem uevent_event_parse_none (o : Nat → Bool) (n : Int) (msg : List Char) (r : Run)
    (h0 : ¬ n ≤ 0) (h1 : ¬ n ≥ (UEVENT_MSG_LEN : Int))
    (hsig : strstr msg UEVENT_STRING.toList = true)
    (hparse : strtolLastChar msg = none) :
    uevent_event o n msg r = (r, -1) := by
  unfold uevent_event
  rw [if_neg h0, if_neg h1, if_pos hsig, hparse]

theorem uevent_event_valid_eq (o : Nat → Bool) (n : Int) (msg : List Char) (r : Run) (cpu : Nat)
    (h0 : ¬ n ≤ 0) (h1 : ¬ n ≥ (UEVENT_MSG_LEN : Int))
    (hsig : strstr msg UEVENT_STRING.toList = true)
    (hparse : strtolLastChar msg = some cpu) :
    uevent_event o n msg r = reconcile_one o cpu r := by
  unfold uevent_event reconcile_one
  rw [if_neg h0, if_neg h1, if_pos hsig, hparse]

theorem reconcile_one_out_of_range (o : Nat → Bool) (cpu : Nat) (r : Run)
    (h : TOTAL_CPUS ≤ cpu) :
    reconcile_one o cpu r = (r, -1) := by
  unfold reconcile_one
  rw [if_pos h]

theorem reconcile_one_consistent (o : Nat → Bool) (cpu : Nat) (r : Run)
    (hlt : ¬ TOTAL_CPUS ≤ cpu)
    (hb1 : (r.state.low_power_mode && !(r.state.freq_set.getD cpu false)) = false)
    (hb2 : (!r.state.low_power_mode && r.state.freq_set.getD cpu false) = false) :
    reconcile_one o cpu r = (r, 0) := by
  unfold reconcile_one
  rw [if_neg hlt, if_neg (by rw [hb1]; simp), if_neg (by rw [hb2]; simp)]

/-! ## Claim C1 -/

/-- C1 counterexample: with every endpoint write succeeding, invoking
the mode-change path (POWER_HINT_LOW_POWER with non-null data) twice
in a row from the initial state performs nine endpoint writes on the
second invocation — not zero — even though every applied flag is
already consistent after the first invocation. -/
theorem c1_second_mode_change_not_write_free :
    (grouper_power_hint okAll .low_power true
        (grouper_power_hint okAll .low_power true initRun)).writes.length ≠
      (grouper_power_hint okAll .low_power true initRun).writes.length ∧
    (grouper_power_hint okAll .low_power true initRun).state.freq_set =
      [true, true, true, true] := by
  constructor
  · decide
  · decide

/-- C1 (amended): every POWER_HINT_LOW_POWER invocation performs
exactly 2·TOTAL_CPUS + 1 endpoint writes when entering low-power and
TOTAL_CPUS + 1 when entering normal, regardless of the current state
and of write outcomes: the mode-change path writes unconditionally and
never consults the applied flags, so the second of two identical
invocations repeats the same writes rather than performing zero. -/
theorem c1_mode_change_write_count (o : Nat → Bool) (data : Bool) (r : Run) :
    (grouper_power_hint o .low_power data r).writes.length =
      r.writes.length + (if data then 2 * TOTAL_CPUS + 1 else TOTAL_CPUS + 1) := by
  cases data with
  | false =>
    rw [hint_lp_false_eq, foldl_normal_len]
    simp [TOTAL_CPUS]
  | true =>
    rw [hint_lp_true_eq, foldl_lp_len]
    simp [TOTAL_CPUS]

/-! ## Claim C8 -/

/-- C8: after every POWER_HINT_LOW_POWER invocation the global
`low_power_mode` flag equals the requested value (true iff `data` is
non-null), for every oracle of per-CPU write outcomes — the mode
assignment (power.c lines 256 and 266) is unconditional and is
performed before the per-CPU write pass, which never touches it. -/
theorem c8_low_power_mode_tracks_data (o : Nat → Bool) (data : Bool) (r : Run) :
    (grouper_power_hint o .low_power data r).state.low_power_mode = data := by
  cases data with
  | false => rw [hint_lp_false_eq, foldl_normal_mode]
  | true => rw [hint_lp_true_eq, foldl_lp_mode]

/-! ## Claim C9 -/

/-- C9: every POWER_HINT_LOW_POWER invocation writes the core-lock
trigger endpoint — "0" when entering low-power (power.c line 255),
"1" when entering normal (line 265) — as the very first write of the
invocation, before any per-CPU frequency write, unconditionally in the
current state (in particular even when every applied flag is already
consistent with the requested mode). -/
theorem c9_core_lock_trigger_written_first (o : Nat → Bool) (data : Bool) (r : Run) :
    ∃ t, (grouper_power_hint o .low_power data r).writes =
      r.writes ++ (Endpoint.coreLockTrigger, if data then "0" else "1") :: t := by
  cases data with
  | false =>
    rw [hint_lp_false_eq]
    obtain ⟨t, ht⟩ := foldl_normal_extend o (List.range TOTAL_CPUS)
      { state := { low_power_mode := false, freq_set := r.state.freq_set },
        writes := r.writes ++ [(Endpoint.coreLockTrigger, "1")] }
    exact ⟨t, by rw [ht]; simp⟩
  | true =>
    rw [hint_lp_true_eq]
    obtain ⟨t, ht⟩ := foldl_lp_extend o (List.range TOTAL_CPUS)
      { state := { low_power_mode := true, freq_set := r.state.freq_set },
        writes := r.writes ++ [(Endpoint.coreLockTrigger, "0")] }
    exact ⟨t, by rw [ht]; simp⟩

/-! ## Claim C10 -/

/-- C10: for every hint other than the interaction boost and the
low-power toggle, `grouper_power_hint` falls to the default case of
the switch (power.c lines 276-277): it performs no endpoint writes and
leaves the mode flag and every applied flag unchanged. -/
theorem c10_unrecognized_hint_noop (o : Nat → Bool) (hint : HintKind) (data : Bool) (r : Run)
    (h1 : hint ≠ HintKind.interaction) (h2 : hint ≠ HintKind.low_power) :
    grouper_power_hint o hint data r = r := by
  cases hint with
  | interaction => exact absurd rfl h1
  | low_power => exact absurd rfl h2
  | vsync => rfl
  | videoEncode => rfl
  | videoDecode => rfl

/-- C10 witness: the VSYNC hint at a concrete state is a no-op. -/
theorem c10_unrecognized_hint_noop_witness :
    grouper_power_hint okAll HintKind.vsync true lpRunAllFalse = lpRunAllFalse :=
  c10_unrecognized_hint_noop okAll HintKind.vsync true lpRunAllFalse
    (by decide) (by decide)

/-! ## Claim C2 -/

/-- C2 counterexample: an online event whose embedded CPU index is -1
(message ending in "…cpu-1") is NOT rejected: `strtol` starts at the
final character, reads the digit '1', and the handler mutates
`freq_set[1]` and calls the Resource Writer. -/
theorem c2_counterexample_neg1_acts_on_cpu1 :
    (uevent_event okAll 32 msgNeg1 lpRunAllFalse).1.state.freq_set =
      [false, true, false, false] ∧
    (uevent_event okAll 32 msgNeg1 lpRunAllFalse).1.writes ≠ [] := by
  constructor
  · decide
  · decide

/-- C2 (amended): a received online event whose parsed CPU index — the
numeric value of the final character of the message — is at least
TOTAL_CPUS, or whose final character is not a digit, never mutates any
applied flag and never calls the Resource Writer.  In particular a
message carrying index TOTAL_CPUS (final character '4') is rejected;
but a message ending in "-1" parses as index 1 and is handled as a
CPU 1 event. -/
theorem c2_out_of_range_event_rejected (o : Nat → Bool) (n : Int) (msg : List Char) (r : Run)
    (h : ∀ cpu, strtolLastChar msg = some cpu → TOTAL_CPUS ≤ cpu) :
    (uevent_event o n msg r).1 = r := by
  by_cases h0 : n ≤ 0
  · rw [uevent_event_bad_n o n msg r (Or.inl h0)]
  by_cases h1 : n ≥ (UEVENT_MSG_LEN : Int)
  · rw [uevent_event_bad_n o n msg r (Or.inr h1)]
  cases hs : strstr msg UEVENT_STRING.toList with
  | false => rw [uevent_event_no_sig o n msg r h0 h1 hs]
  | true =>
    cases hm : strtolLastChar msg with
    | none => rw [uevent_event_parse_none o n msg r h0 h1 hs hm]
    | some cpu =>
      rw [uevent_event_valid_eq o n msg r cpu h0 h1 hs hm,
          reconcile_one_out_of_range o cpu r (h cpu hm)]

/-- C2 witness: the event for CPU index TOTAL_CPUS (message ending in
'4') leaves a concrete low-power state untouched. -/
theorem c2_out_of_range_event_rejected_witness :
    (uevent_event okAll 31 msg4 lpRunAllFalse).1 = lpRunAllFalse := by
  apply c2_out_of_range_event_rejected
  intro cpu hc
  have h4 : strtolLastChar msg4 = some 4 := by decide
  rw [h4] at hc
  cases hc
  decide

/-! ## Claim C3 -/

/-- C3 counterexample: a message ending in the digits "12" is acted
upon as CPU 2 — the flag for CPU 2 is mutated — rather than yielding
index 12 (which would be rejected as out of range with no mutation). -/
theorem c3_counterexample_msg12_acts_on_cpu2 :
    (uevent_event okAll 33 msg12 lpRunAllFalse).1.state.freq_set =
      [false, false, true, false] := by decide

/-- C3 (amended): for every received message containing the
online-event signature, the CPU index acted upon is the numeric value
of the FINAL character of the message only (`strtol` is started at
`cp + n - 1`), so a message ending in the digits "12" yields index 2,
not 12; a non-digit final character is a parse failure that causes the
message to be dropped. -/
theorem c3_index_is_final_char (o : Nat → Bool) (n : Int) (msg : List Char) (r : Run) (c : Char)
    (h0 : 0 < n) (h1 : n < (UEVENT_MSG_LEN : Int))
    (hsig : strstr msg UEVENT_STRING.toList = true)
    (hlast : msg.getLast? = some c) :
    uevent_event o n msg r =
      if c.isDigit then reconcile_one o (c.toNat - 48) r else (r, -1) := by
  have hparse : strtolLastChar msg = if c.isDigit then some (c.toNat - 48) else none := by
    unfold strtolLastChar
    rw [hlast]
  have hn0 : ¬ n ≤ 0 := by omega
  have hn1 : ¬ n ≥ (UEVENT_MSG_LEN : Int) := by omega
  by_cases hd : c.isDigit
  · rw [if_pos hd]
    rw [if_pos hd] at hparse
    unfold uevent_event reconcile_one
    rw [if_neg hn0, if_neg hn1, if_pos hsig, hparse]
  · rw [if_neg hd]
    rw [if_neg hd] at hparse
    unfold uevent_event
    rw [if_neg hn0, if_neg hn1, if_pos hsig, hparse]

/-- C3 witness: the "…cpu12" message is processed exactly as a CPU 2
reconciliation. -/
theorem c3_index_is_final_char_witness :
    uevent_event okAll 32 msg12 lpRunAllFalse =
      if Char.isDigit '2' then reconcile_one okAll (Char.toNat '2' - 48) lpRunAllFalse
      else (lpRunAllFalse, -1) :=
  c3_index_is_final_char okAll 32 msg12 lpRunAllFalse '2'
    (by decide) (by decide) (by decide) (by decide)

/-! ## Claim C6 -/

/-- C6: for every online event carrying a valid CPU index, if neither
(mode low-power and flag clear) nor (mode normal and flag set) holds,
the handler performs no endpoint writes and leaves the mode and every
applied flag unchanged (power.c falls through both branch guards at
lines 116 and 127). -/
theorem c6_consistent_event_is_noop (o : Nat → Bool) (n : Int) (msg : List Char) (r : Run)
    (cpu : Nat)
    (hparse : strtolLastChar msg = some cpu)
    (hcpu : cpu < TOTAL_CPUS)
    (hnot1 : ¬(r.state.low_power_mode = true ∧ r.state.freq_set.getD cpu false = false))
    (hnot2 : ¬(r.state.low_power_mode = false ∧ r.state.freq_set.getD cpu false = true)) :
    (uevent_event o n msg r).1 = r := by
  have hb1 : (r.state.low_power_mode && !(r.state.freq_set.getD cpu false)) = false := by
    cases hx : r.state.low_power_mode <;> cases hy : r.state.freq_set.getD cpu false <;>
      simp_all
  have hb2 : (!r.state.low_power_mode && r.state.freq_set.getD cpu false) = false := by
    cases hx : r.state.low_power_mode <;> cases hy : r.state.freq_set.getD cpu false <;>
      simp_all
  have hlt : ¬ TOTAL_CPUS ≤ cpu := by omega
  by_cases h0 : n ≤ 0
  · rw [uevent_event_bad_n o n msg r (Or.inl h0)]
  by_cases h1 : n ≥ (UEVENT_MSG_LEN : Int)
  · rw [uevent_event_bad_n o n msg r (Or.inr h1)]
  cases hs : strstr msg UEVENT_STRING.toList with
  | false => rw [uevent_event_no_sig o n msg r h0 h1 hs]
  | true =>
    rw [uevent_event_valid_eq o n msg r cpu h0 h1 hs hparse,
        reconcile_one_consistent o cpu r hlt hb1 hb2]

/-- C6 witness: a CPU 1 online event in normal mode with the flag
clear is a no-op on a concrete state. -/
theorem c6_consistent_event_is_noop_witness :
    (uevent_event okAll 31 msg1 initRun).1 = initRun :=
  c6_consistent_event_is_noop okAll 31 msg1 initRun 1
    (by decide) (by decide) (by decide) (by decide)

/-! ## Claim C7 -/

/-- C7: an empty or error receive (n ≤ 0) and a message whose length
is at or above UEVENT_MSG_LEN are rejected before any parsing: the
result is (r, -1) for EVERY message content, so no signature search,
no index extraction, no state mutation and no endpoint write occurs
(power.c lines 96-102). -/
theorem c7_empty_or_overflow_dropped (o : Nat → Bool) (n : Int) (msg : List Char) (r : Run)
    (h : n ≤ 0 ∨ (UEVENT_MSG_LEN : Int) ≤ n) :
    uevent_event o n msg r = (r, -1) := by
  unfold uevent_event
  rcases h with h | h
  · rw [if_pos h]
  · by_cases h0 : n ≤ 0
    · rw [if_pos h0]
    · rw [if_neg h0, if_pos (show n ≥ (UEVENT_MSG_LEN : Int) from h)]

/-- C7 witness: a receive of exactly UEVENT_MSG_LEN bytes of a
well-formed online message is discarded whole. -/
theorem c7_empty_or_overflow_dropped_witness :
    uevent_event okAll 2048 msg1 initRun = (initRun, -1) :=
  c7_empty_or_overflow_dropped okAll 2048 msg1 initRun (Or.inr (by decide))

/-! ## Characterization of the uevent low-power retry loop -/

theorem lp_retry_loop_succ (o : Nat → Bool) (cpu retry : Nat) (r : Run) :
    lp_retry_loop o cpu (retry + 1) r =
      if o (r.writes.length + 1) then
        { state := { low_power_mode := r.state.low_power_mode,
                     freq_set := r.state.freq_set.set cpu true },
          writes := r.writes ++ [(Endpoint.cpuMin cpu, LOW_POWER_MIN_FREQ),
                                 (Endpoint.cpuMax cpu, LOW_POWER_MAX_FREQ)] }
      else
        lp_retry_loop o cpu retry
          { r with writes := r.writes ++ [(Endpoint.cpuMin cpu, LOW_POWER_MIN_FREQ),
                                          (Endpoint.cpuMax cpu, LOW_POWER_MAX_FREQ)] } := by
  by_cases h : o (r.writes.length + 1)
  · conv_lhs => unfold lp_retry_loop
    simp [sysfs_write, h]
  · conv_lhs => unfold lp_retry_loop
    simp [sysfs_write, h]

/-- Full characterization of the uevent low-power retry loop: the loop
performs min+max write pairs until the first successful max write,
sets the flag exactly when some attempt within the fuel succeeds, and
leaves the state untouched when all attempts fail. -/
theorem lp_retry_loop_spec (o : Nat → Bool) (cpu : Nat) (retry : Nat) (r : Run) :
    lp_retry_loop o cpu retry r =
      match firstSuccess o r.writes.length retry with
      | some k =>
        { state := { low_power_mode := r.state.low_power_mode,
                     freq_set := r.state.freq_set.set cpu true },
          writes := r.writes ++ lpAttemptWrites cpu (k + 1) }
      | none => { state := r.state, writes := r.writes ++ lpAttemptWrites cpu retry } := by
  induction retry generalizing r with
  | zero => simp [lp_retry_loop, firstSuccess, lpAttemptWrites]
  | succ m ih =>
    rw [lp_retry_loop_succ]
    by_cases h : o (r.writes.length + 1)
    · have hf : firstSuccess o r.writes.length (m + 1) = some 0 := by
        conv_lhs => unfold firstSuccess
        rw [if_pos h]
      rw [if_pos h, hf]
      simp [lpAttemptWrites]
    · have hf : firstSuccess o r.writes.length (m + 1) =
          (firstSuccess o (r.writes.length + 2) m).map (· + 1) := by
        conv_lhs => unfold firstSuccess
        rw [if_neg h]
      rw [if_neg h, ih, hf]
      cases hk : firstSuccess o (r.writes.length + 2) m with
      | none => simp [hk, lpAttemptWrites]
      | some k => simp [hk, lpAttemptWrites]

/-- The branch of `reconcile_one` taken when the mode is low-power and
the per-CPU applied flag is clear (power.c line 116). -/
theorem reconcile_one_lp_branch (o : Nat → Bool) (cpu : Nat) (r : Run)
    (hlt : ¬ TOTAL_CPUS ≤ cpu)
    (hlp : r.state.low_power_mode = true)
    (hset : r.state.freq_set.getD cpu false = false) :
    reconcile_one o cpu r = (lp_retry_loop o cpu RETRY_TIME_CHANGING_FREQ r, 0) := by
  unfold reconcile_one
  rw [if_neg hlt, if_pos (by rw [hlp, hset]; rfl)]

/-! ## Claim C5 -/

/-- C5: for every online event carrying a valid CPU index, when the
mode is low-power and the applied flag of that CPU is clear, the handler
runs the bounded retry loop (RETRY_TIME_CHANGING_FREQ = 20 attempts):
each attempt issues the minimum-bound write and the maximum-bound
write, the outcome is gated only on the max write (`firstSuccess`
consults only the odd trace offsets, where the max writes sit), the
loop stops right after the first successful max write having set the
flag, and if no attempt succeeds the state is left unchanged — the
flag stays false. -/
theorem c5_lp_event_bounded_retry (o : Nat → Bool) (n : Int) (msg : List Char) (r : Run)
    (cpu : Nat)
    (h0 : 0 < n) (h1 : n < (UEVENT_MSG_LEN : Int))
    (hsig : strstr msg UEVENT_STRING.toList = true)
    (hparse : strtolLastChar msg = some cpu)
    (hcpu : cpu < TOTAL_CPUS)
    (hlp : r.state.low_power_mode = true)
    (hset : r.state.freq_set.getD cpu false = false) :
    (uevent_event o n msg r).1 =
      match firstSuccess o r.writes.length RETRY_TIME_CHANGING_FREQ with
      | some k =>
        { state := { low_power_mode := r.state.low_power_mode,
                     freq_set := r.state.freq_set.set cpu true },
          writes := r.writes ++ lpAttemptWrites cpu (k + 1) }
      | none =>
        { state := r.state,
          writes := r.writes ++ lpAttemptWrites cpu RETRY_TIME_CHANGING_FREQ } := by
  rw [uevent_event_valid_eq o n msg r cpu (by omega) (by omega) hsig hparse,
      reconcile_one_lp_branch o cpu r (by omega) hlp hset]
  exact lp_retry_loop_spec o cpu RETRY_TIME_CHANGING_FREQ r

/-- C5 witness: with only trace position 7 succeeding, the CPU 1 event
from a fresh low-power state runs four attempts and sets the flag. -/
theorem c5_lp_event_bounded_retry_witness :
    (uevent_event oSeven 31 msg1 lpRunAllFalse).1 =
      match firstSuccess oSeven lpRunAllFalse.writes.length RETRY_TIME_CHANGING_FREQ with
      | some k =>
        { state := { low_power_mode := lpRunAllFalse.state.low_power_mode,
                     freq_set := lpRunAllFalse.state.freq_set.set 1 true },
          writes := lpRunAllFalse.writes ++ lpAttemptWrites 1 (k + 1) }
      | none =>
        { state := lpRunAllFalse.state,
          writes := lpRunAllFalse.writes ++ lpAttemptWrites 1 RETRY_TIME_CHANGING_FREQ } :=
  c5_lp_event_bounded_retry oSeven 31 msg1 lpRunAllFalse 1
    (by decide) (by decide) (by decide) (by decide) (by decide) (by decide) (by decide)

/-! ## Claim C4 -/

/-- C4: starting from a fresh state (no writes issued, all flags
clear), if during the low-power mode change the maximum-bound write
fails for CPU 1 (trace position 4 — its only attempt, since this path
does not retry) but succeeds for CPUs 0, 2, 3 (positions 2, 6, 8),
then when the hint returns the applied flag of CPU 1 is false while CPUs
0, 2, 3 have applied true; and a subsequent online event for CPU 1
re-attempts the writes and sets applied = true when the maximum-bound
write then succeeds (position 10, the first retry attempt). -/
theorem c4_failed_cpu_retried_by_later_event (o : Nat → Bool) (r : Run)
    (hw : r.writes = []) (hf : r.state.freq_set = [false, false, false, false])
    (h2 : o 2 = true) (h4 : o 4 = false) (h6 : o 6 = true) (h8 : o 8 = true)
    (h10 : o 10 = true) :
    (grouper_power_hint o .low_power true r).state.freq_set = [true, false, true, true] ∧
    (uevent_event o 31 msg1 (grouper_power_hint o .low_power true r)).1.state.freq_set =
      [true, true, true, true] := by
  have hrange : List.range TOTAL_CPUS = [0, 1, 2, 3] := by decide
  have e1 : grouper_power_hint o .low_power true r =
      { state := { low_power_mode := true, freq_set := [true, false, true, true] },
        writes := [(Endpoint.coreLockTrigger, "0"),
                   (Endpoint.cpuMin 0, LOW_POWER_MIN_FREQ),
                   (Endpoint.cpuMax 0, LOW_POWER_MAX_FREQ),
                   (Endpoint.cpuMin 1, LOW_POWER_MIN_FREQ),
                   (Endpoint.cpuMax 1, LOW_POWER_MAX_FREQ),
                   (Endpoint.cpuMin 2, LOW_POWER_MIN_FREQ),
                   (Endpoint.cpuMax 2, LOW_POWER_MAX_FREQ),
                   (Endpoint.cpuMin 3, LOW_POWER_MIN_FREQ),
                   (Endpoint.cpuMax 3, LOW_POWER_MAX_FREQ)] } := by
    rw [hint_lp_true_eq, hw, hf, hrange]
    simp [List.foldl_cons, List.foldl_nil, lp_hint_cpu_eq, h2, h4, h6, h8, List.set]
  refine ⟨by rw [e1], ?_⟩
  rw [e1]
  rw [uevent_event_valid_eq o 31 msg1 _ 1 (by decide) (by decide) (by decide) (by decide),
      reconcile_one_lp_branch o 1 _ (by decide) (by decide) (by decide)]
  rw [show RETRY_TIME_CHANGING_FREQ = 19 + 1 from rfl, lp_retry_loop_succ]
  simp [h10, List.set]

/-- C4 witness: the scenario at the initial state under `oSpare4`. -/
theorem c4_failed_cpu_retried_by_later_event_witness :
    (grouper_power_hint oSpare4 .low_power true initRun).state.freq_set =
      [true, false, true, true] ∧
    (uevent_event oSpare4 31 msg1
        (grouper_power_hint oSpare4 .low_power true initRun)).1.state.freq_set =
      [true, true, true, true] :=
  c4_failed_cpu_retried_by_later_event oSpare4 initRun
    (by decide) (by decide) (by decide) (by decide) (by decide) (by decide) (by decide)
